import Mathlib

/-
  Verification of the NexusUI widget manager (src/lib/core/manager.js)
  against its natural-language specification.

  The manager is embedded shallowly: the mutable manager object becomes the
  record `NxState`, JS string-keyed objects become association lists over
  `String`, and each prototype method becomes a pure function from state to
  state.  JS truthiness of optional string arguments is modelled by
  `jsTruthy` (undefined/null and the empty string are falsy).  Widgets are
  external collaborators; they are modelled by the record `Widget`, which
  keeps exactly the fields the manager reads or writes (canvasID, colors,
  throttlePeriod, arbitrary properties) plus counters recording how many
  times the manager invoked their draw/init capabilities.
-/

namespace NexusUI

/-- JS truthiness of an optional string argument: `undefined`/`null` (`none`)
and the empty string are falsy; every other string is truthy. -/
def jsTruthy : Option String → Bool
  | none => false
  | some s => !(s == "")

/-- Assoc-map update modelling the JS assignment `obj[k] = v`: replaces the
value at the first occurrence of key `k`, or appends the binding when `k` is
absent. -/
def setKey {α : Type} : List (String × α) → String → α → List (String × α)
  | [], k, v => [(k, v)]
  | (k1, v1) :: rest, k, v =>
      if k1 = k then (k, v) :: rest else (k1, v1) :: setKey rest k v

/-- Assoc-map lookup modelling the JS read `obj[k]` (`none` = undefined). -/
def getKey {α : Type} : List (String × α) → String → Option α
  | [], _ => none
  | (k1, v1) :: rest, k => if k1 = k then some v1 else getKey rest k

/-- A widget instance, as seen by the manager: the fields the manager reads or
writes, plus counters for the capability calls it makes on the widget. -/
structure Widget where
  canvasID : String
  colors : List (String × String)
  throttlePeriod : Int
  props : List (String × String)
  drawCount : Nat
  initCount : Nat
deriving DecidableEq, Repr

/-- The widget's draw capability (a redraw, counted). -/
def Widget.draw (w : Widget) : Widget :=
  { w with drawCount := w.drawCount + 1 }

/-- The widget's init capability (counted). -/
def Widget.runInit (w : Widget) : Widget :=
  { w with initCount := w.initCount + 1 }

/-- An animation callback: an identity `cid` plus whether invoking it throws.
The manager treats callbacks as values compared by identity;
distinct identities are modelled by distinct `cid`s. -/
structure Cb where
  cid : Nat
  throws : Bool
deriving DecidableEq, Repr

/-- The manager state (the fields of the `nx` object that the specified
operations touch): `widgets` is the registry, `elemTypeArr` the type-count
ledger, `colors` the shared color mapping, `aniItems` the animation-callback
list, and `props` holds the arbitrary global properties written by `setProp`. -/
structure NxState where
  widgets : List (String × Widget)
  elemTypeArr : List String
  colors : List (String × String)
  throttlePeriod : Int
  showLabels : Bool
  props : List (String × String)
  aniItems : List Cb
deriving DecidableEq, Repr

/-- manager.prototype.colors (source lines 247-253). -/
def defaultColors : List (String × String) :=
  [("accent", "#ff5500"), ("fill", "#eee"), ("border", "#bbb"),
   ("black", "#000"), ("white", "#FFF")]

/-- The manager state right after the constructor runs (source lines 17-72). -/
def nxInit : NxState :=
  { widgets := [], elemTypeArr := [], colors := defaultColors,
    throttlePeriod := 20, showLabels := false, props := [], aniItems := [] }

/-- manager.prototype.colorize (source lines 212-226).  The second JS argument
may be missing (`none`); a falsy `newCol` makes the call treat its first
argument as the color and default the aspect to "accent".  Every registered
widget's own color map is overwritten at the chosen aspect and the widget is
redrawn. -/
def colorize (s : NxState) (aspect : String) (newCol : Option String) : NxState :=
  let p : String × String :=
    if jsTruthy newCol then (aspect, newCol.getD "") else ("accent", aspect)
  { s with
    colors := setKey s.colors p.1 p.2,
    widgets := s.widgets.map (fun kw =>
      (kw.1, Widget.draw { kw.2 with colors := setKey kw.2.colors p.1 p.2 })) }

/-- manager.prototype.setThrottlePeriod (source lines 233-238): sets the shared
throttle value and pushes it into every widget; nothing else, no redraw. -/
def setThrottlePeriod (s : NxState) (newThrottle : Int) : NxState :=
  { s with
    throttlePeriod := newThrottle,
    widgets := s.widgets.map (fun kw =>
      (kw.1, { kw.2 with throttlePeriod := newThrottle })) }

/-- manager.prototype.setProp (source lines 341-349): guarded by JS truthiness
of both arguments (`if (prop && val)`); when both are truthy it writes the
property on the global object and on every widget and redraws each widget. -/
def setProp (s : NxState) (prop val : String) : NxState :=
  if prop ≠ "" ∧ val ≠ "" then
    { s with
      props := setKey s.props prop val,
      widgets := s.widgets.map (fun kw =>
        (kw.1, Widget.draw { kw.2 with props := setKey kw.2.props prop val })) }
  else s

/-- manager.prototype.pulse (source lines 272-276): run the callbacks in list
order.  The trace lists the `cid`s of the callbacks actually invoked; the flag
records whether an exception escaped the tick (a throwing callback is invoked,
its exception propagates, and the remaining callbacks are skipped). -/
def pulseRun : List Cb → List Nat × Bool
  | [] => ([], false)
  | c :: rest =>
      if c.throws then ([c.cid], true)
      else
        let r := pulseRun rest
        (c.cid :: r.1, r.2)

/-- One animation tick on a manager state. -/
def pulse (s : NxState) : List Nat × Bool :=
  pulseRun s.aniItems

/-- JS Array.prototype.indexOf: index of the first occurrence, or -1. -/
def jsIndexOf (arr : List Cb) (fn : Cb) : Int :=
  match arr.findIdx? (fun c => c = fn) with
  | some i => (i : Int)
  | none => -1

/-- JS one-argument Array.prototype.splice on `arr`: normalizes the start index
(negative indices count from the end, clamped at 0) and removes every element
from there through the end, leaving the prefix. -/
def jsSpliceFrom (arr : List Cb) (start : Int) : List Cb :=
  let s : Nat := if start < 0 then ((arr.length : Int) + start).toNat else start.toNat
  arr.take s

/-- manager.prototype.removeAni (source lines 282-284):
`this.aniItems.splice(this.aniItems.indexOf(fn))`. -/
def removeAni (s : NxState) (fn : Cb) : NxState :=
  { s with aniItems := jsSpliceFrom s.aniItems (jsIndexOf s.aniItems fn) }

/-- A canvas surface, as transform reads it: its element id (the empty string
models a canvas with no id, as in the DOM) and its "nx" attribute
(`getAttribute` yields null = `none` when the attribute is absent). -/
structure Canvas where
  id : String
  nxAttr : Option String
deriving DecidableEq, Repr

/-- The widget-type catalog, the external collaborator behind
`require('../widgets')`: a type name resolves to a constructor or to nothing
(the lookup yields undefined, so the `new` expression throws); a constructor
applied to an identifier either returns a widget or throws (`none`). -/
def Catalog : Type :=
  String → Option (String → Option Widget)

/-- The identifier transform leaves on the canvas (source lines 166-171): a
canvas with no id gets `nxType + (elemCount + 1)`; an explicit id is kept. -/
def assignedId (canvas : Canvas) (t : String) (elemCount : Nat) : String :=
  if canvas.id = "" then t ++ toString (elemCount + 1) else canvas.id

/-- The construction step `new (require('../widgets')[nxType])(canvas.id)`
(source line 175): `none` means the expression threw (unknown type name or a
constructor error). -/
def constructs (cat : Catalog) (t i : String) : Option Widget :=
  match cat t with
  | none => none
  | some ctor => ctor i

/-- The outcome of one transform call: the manager state and canvas after the
call, the return value (`none` models returning undefined), the console log
entries emitted, and the exception that escaped to the caller, if any. -/
structure TransformResult where
  state : NxState
  canvas : Canvas
  ret : Option Widget
  log : List String
  exn : Option String
deriving DecidableEq, Repr

/-- The body of transform after the type name has been resolved to the truthy
string `t` (source lines 149-187): count the earlier ledger entries for `t`,
append `t` to the ledger, assign the canvas id if it had none, construct the
widget, and register/init it.  When construction throws, the exception is
caught and only `t` is logged (line 177), but the registration line 181 then
reads `.canvasID` off the undefined result, so a TypeError escapes with the
ledger already extended and nothing registered.  On success the constructed
widget is stored under its `canvasID` key, init is invoked on it (the stored
and returned object are the same JS object, so the model stores the
post-init widget), and the widget is returned.  The page-global exposure of
the widget (line 183) is a side effect on `window`, outside this model. -/
def transformTyped (cat : Catalog) (s : NxState) (canvas : Canvas) (t : String) :
    TransformResult :=
  let elemCount := s.elemTypeArr.count t
  let s1 : NxState := { s with elemTypeArr := s.elemTypeArr ++ [t] }
  let canvas1 : Canvas := { canvas with id := assignedId canvas t elemCount }
  match constructs cat t canvas1.id with
  | none =>
      { state := s1, canvas := canvas1, ret := none, log := [t],
        exn := some "TypeError" }
  | some w =>
      let w1 := Widget.runInit w
      { state := { s1 with widgets := setKey s1.widgets w1.canvasID w1 },
        canvas := canvas1, ret := some w1, log := [], exn := none }

/-- manager.prototype.transform (source lines 134-188).  Guard: if any
registered widget's `canvasID` equals the canvas's id, return undefined
(lines 135-139).  Type resolution: the explicit `ty` argument if truthy,
otherwise the canvas's "nx" attribute; a falsy result returns undefined
(lines 140-148).  Otherwise proceed with `transformTyped`. -/
def transform (cat : Catalog) (s : NxState) (canvas : Canvas) (ty : Option String) :
    TransformResult :=
  if s.widgets.any (fun kw => kw.2.canvasID == canvas.id) then
    { state := s, canvas := canvas, ret := none, log := [], exn := none }
  else
    let nxType : Option String := if jsTruthy ty then ty else canvas.nxAttr
    if jsTruthy nxType then transformTyped cat s canvas (nxType.getD "")
    else { state := s, canvas := canvas, ret := none, log := [], exn := none }

/-- A canvas fresh from `document.createElement` with the "nx" attribute set
to `ty` and no id yet, as built by manager.prototype.add for a settings
object without a `name`. -/
def freshCanvas (ty : String) : Canvas :=
  { id := "", nxAttr := some ty }

/-- Run `n` successive transform calls on fresh unnamed canvases of type `ty`
(distinct surfaces, no explicit identifiers), collecting the identifier each
canvas ends up with, in creation order. -/
def runUnnamed (cat : Catalog) (ty : String) : Nat → NxState → NxState × List String
  | 0, s => (s, [])
  | Nat.succ n, s =>
      let r := transform cat s (freshCanvas ty) none
      let rest := runUnnamed cat ty n r.state
      (rest.1, r.canvas.id :: rest.2)

/-- The catalog is honest for type `t`: any widget its constructor returns
carries the identifier it was handed (the spec's catalog is a factory "taking
an identifier").  Constructors may still throw. -/
def honestCatalog (cat : Catalog) (t : String) : Prop :=
  ∀ i w, constructs cat t i = some w → w.canvasID = i

/-- A plain widget as a well-behaved constructor would build it for id `i`. -/
def dialWidget (i : String) : Widget :=
  { canvasID := i, colors := defaultColors, throttlePeriod := 20, props := [],
    drawCount := 0, initCount := 0 }

/-- A concrete catalog knowing only the type "dial", whose constructor always
succeeds. -/
def sampleCatalog : Catalog :=
  fun t => if t = "dial" then some (fun i => some (dialWidget i)) else none

/-- A concrete catalog on which every lookup fails (every type is unknown). -/
def badCatalog : Catalog :=
  fun _ => none

/-- The spec's end-to-end naming scenario: from a fresh manager, create an
unnamed dial, then a dial on a canvas carrying the explicit id "mainDial",
then a third unnamed dial; the result is the third call's outcome. -/
def dialScenario (cat : Catalog) : TransformResult :=
  let r1 := transform cat nxInit (freshCanvas "dial") none
  let r2 := transform cat r1.state { id := "mainDial", nxAttr := some "dial" } none
  transform cat r2.state (freshCanvas "dial") none

/-- A state with one registered widget, for concrete instantiations. -/
def propState : NxState :=
  { nxInit with widgets := [("dial1", dialWidget "dial1")] }

/-- A state with three animation callbacks, none of which throws. -/
def aniOkState : NxState :=
  { nxInit with aniItems := [⟨1, false⟩, ⟨2, false⟩, ⟨3, false⟩] }

/-- A state with three animation callbacks whose second one throws. -/
def aniThrowState : NxState :=
  { nxInit with aniItems := [⟨1, false⟩, ⟨2, true⟩, ⟨3, false⟩] }

/-- A state whose callback list holds three distinct callbacks. -/
def aniListState : NxState :=
  { nxInit with aniItems := [⟨0, false⟩, ⟨1, false⟩, ⟨2, false⟩] }

/- ------------------------------------------------------------------ -/
/- Helper lemmas                                                      -/
/- ------------------------------------------------------------------ -/

lemma append_ne_empty_of_left (a b : String) (ha : a ≠ "") : a ++ b ≠ "" := by
  intro h
  apply ha
  have h2 := congrArg String.data h
  rw [String.data_append] at h2
  exact String.ext (List.append_eq_nil.1 h2).1

lemma mem_setKey {α : Type} (m : List (String × α)) (k : String) (v : α)
    (p : String × α) (hp : p ∈ setKey m k v) : p = (k, v) ∨ p ∈ m := by
  induction m with
  | nil => simpa [setKey] using hp
  | cons hd tl ih =>
      obtain ⟨k1, v1⟩ := hd
      rw [setKey] at hp
      by_cases hk : k1 = k
      · rw [if_pos hk] at hp
        rcases List.mem_cons.1 hp with h | h
        · exact Or.inl h
        · exact Or.inr (List.mem_cons.2 (Or.inr h))
      · rw [if_neg hk] at hp
        rcases List.mem_cons.1 hp with h | h
        · exact Or.inr (List.mem_cons.2 (Or.inl h))
        · rcases ih h with h2 | h2
          · exact Or.inl h2
          · exact Or.inr (List.mem_cons.2 (Or.inr h2))

lemma filter_key_nodup_length {α : Type} (l : List (String × α)) (k : String) (v : α)
    (hmem : (k, v) ∈ l) (hnodup : (l.map Prod.fst).Nodup) :
    (l.filter (fun kw => kw.1 == k)).length = 1 := by
  induction l with
  | nil => cases hmem
  | cons hd tl ih =>
      rw [List.map_cons, List.nodup_cons] at hnodup
      rcases List.mem_cons.1 hmem with heq | htl
      · have hd1 : hd.1 = k := by rw [← heq]
        have hnone : tl.filter (fun kw => kw.1 == k) = [] := by
          apply List.filter_eq_nil_iff.2
          intro a ha hak
          apply hnodup.1
          rw [hd1]
          have : a.1 = k := by simpa using hak
          rw [← this]
          exact List.mem_map.2 ⟨a, ha, rfl⟩
        simp [List.filter_cons, hd1, hnone]
      · have hk : hd.1 ≠ k := by
          intro h
          apply hnodup.1
          rw [h]
          exact List.mem_map.2 ⟨(k, v), htl, rfl⟩
        simp only [List.filter_cons]
        rw [if_neg (by simpa using hk)]
        exact ih htl hnodup.2

lemma transformTyped_eq_fail (cat : Catalog) (s : NxState) (canvas : Canvas) (t : String)
    (hcon : constructs cat t (assignedId canvas t (s.elemTypeArr.count t)) = none) :
    transformTyped cat s canvas t =
      { state := { s with elemTypeArr := s.elemTypeArr ++ [t] },
        canvas := { canvas with id := assignedId canvas t (s.elemTypeArr.count t) },
        ret := none, log := [t], exn := some "TypeError" } := by
  simp [transformTyped, hcon]

lemma transformTyped_eq_ok (cat : Catalog) (s : NxState) (canvas : Canvas) (t : String)
    (w : Widget)
    (hcon : constructs cat t (assignedId canvas t (s.elemTypeArr.count t)) = some w) :
    transformTyped cat s canvas t =
      { state := { s with
          elemTypeArr := s.elemTypeArr ++ [t],
          widgets := setKey s.widgets (Widget.runInit w).canvasID (Widget.runInit w) },
        canvas := { canvas with id := assignedId canvas t (s.elemTypeArr.count t) },
        ret := some (Widget.runInit w), log := [], exn := none } := by
  simp [transformTyped, hcon]

lemma transform_eq_typed (cat : Catalog) (s : NxState) (canvas : Canvas)
    (ty : Option String) (t : String)
    (hguard : ∀ kw ∈ s.widgets, kw.2.canvasID ≠ canvas.id)
    (hres : (if jsTruthy ty then ty else canvas.nxAttr) = some t) (ht : t ≠ "") :
    transform cat s canvas ty = transformTyped cat s canvas t := by
  have hg : s.widgets.any (fun kw => kw.2.canvasID == canvas.id) = false := by
    rw [List.any_eq_false]
    intro kw hkw
    simpa using hguard kw hkw
  simp only [transform, hg, hres]
  simp [jsTruthy, ht]

lemma transform_step (cat : Catalog) (t : String) (ht : t ≠ "")
    (hcat : honestCatalog cat t) (s : NxState) (canvas : Canvas) (ty : Option String)
    (hguard : ∀ kw ∈ s.widgets, kw.2.canvasID ≠ canvas.id)
    (hres : (if jsTruthy ty then ty else canvas.nxAttr) = some t) :
    (transform cat s canvas ty).canvas.id = assignedId canvas t (s.elemTypeArr.count t) ∧
    (transform cat s canvas ty).state.elemTypeArr = s.elemTypeArr ++ [t] ∧
    (∀ kw ∈ (transform cat s canvas ty).state.widgets,
      kw.2.canvasID = assignedId canvas t (s.elemTypeArr.count t) ∨ kw ∈ s.widgets) := by
  rw [transform_eq_typed cat s canvas ty t hguard hres ht]
  cases hcon : constructs cat t (assignedId canvas t (s.elemTypeArr.count t)) with
  | none =>
      rw [transformTyped_eq_fail cat s canvas t hcon]
      exact ⟨rfl, rfl, fun kw hkw => Or.inr hkw⟩
  | some w =>
      have hwid0 : w.canvasID = assignedId canvas t (s.elemTypeArr.count t) :=
        hcat _ _ hcon
      have hwid : (Widget.runInit w).canvasID
          = assignedId canvas t (s.elemTypeArr.count t) := hwid0
      rw [transformTyped_eq_ok cat s canvas t w hcon]
      refine ⟨rfl, rfl, fun kw hkw => ?_⟩
      rcases mem_setKey _ _ _ _ hkw with h | h
      · left
        rw [h]
        exact hwid
      · right
        exact h

lemma runUnnamed_ids_general (cat : Catalog) (ty : String) (hty : ty ≠ "")
    (hcat : honestCatalog cat ty) :
    ∀ (n : Nat) (s : NxState), (∀ kw ∈ s.widgets, kw.2.canvasID ≠ "") →
      (runUnnamed cat ty n s).2
        = (List.range n).map (fun i => ty ++ toString (s.elemTypeArr.count ty + (i + 1))) := by
  intro n
  induction n with
  | zero =>
      intro s _
      simp [runUnnamed]
  | succ n ih =>
      intro s hno
      have hguard : ∀ kw ∈ s.widgets, kw.2.canvasID ≠ (freshCanvas ty).id := by
        intro kw hkw
        simpa [freshCanvas] using hno kw hkw
      have hres : (if jsTruthy (none : Option String) then none
          else (freshCanvas ty).nxAttr) = some ty := by
        simp [jsTruthy, freshCanvas]
      obtain ⟨hid, harr, hw⟩ :=
        transform_step cat ty hty hcat s (freshCanvas ty) none hguard hres
      have hassigned : assignedId (freshCanvas ty) ty (s.elemTypeArr.count ty)
          = ty ++ toString (s.elemTypeArr.count ty + 1) := by
        simp [assignedId, freshCanvas]
      have hno2 : ∀ kw ∈ (transform cat s (freshCanvas ty) none).state.widgets,
          kw.2.canvasID ≠ "" := by
        intro kw hkw
        rcases hw kw hkw with h | h
        · rw [h, hassigned]
          exact append_ne_empty_of_left ty _ hty
        · exact hno kw h
      have hcount : (transform cat s (freshCanvas ty) none).state.elemTypeArr.count ty
          = s.elemTypeArr.count ty + 1 := by
        rw [harr]
        simp [List.count_append]
      rw [runUnnamed]
      simp only []
      rw [hid, hassigned, ih _ hno2, hcount]
      rw [List.range_succ_eq_map, List.map_cons, List.map_map]
      congr 1
      apply List.map_congr_left
      intro a _
      simp only [Function.comp_apply]
      congr 2
      omega

lemma pulseRun_ok (l : List Cb) (h : ∀ c ∈ l, c.throws = false) :
    pulseRun l = (l.map Cb.cid, false) := by
  induction l with
  | nil => rfl
  | cons c rest ih =>
      have hc : c.throws = false := h c (by simp)
      have hr := ih (fun d hd => h d (by simp [hd]))
      simp [pulseRun, hc, hr]

lemma pulseRun_abort (pre : List Cb) (c : Cb) (post : List Cb)
    (hpre : ∀ d ∈ pre, d.throws = false) (hc : c.throws = true) :
    pulseRun (pre ++ c :: post) = (pre.map Cb.cid ++ [c.cid], true) := by
  induction pre with
  | nil => simp [pulseRun, hc]
  | cons d rest ih =>
      have hd : d.throws = false := hpre d (by simp)
      have hr := ih (fun e he => hpre e (by simp [he]))
      simp [pulseRun, hd, hr]

/- ------------------------------------------------------------------ -/
/- Claims                                                             -/
/- ------------------------------------------------------------------ -/

/-- C1: for every sequence of transform calls on distinct fresh surfaces of
the same (nonempty) type, each carrying no explicit identifier, starting from
a state whose type-count ledger holds no entry for that type and whose
registered widgets all carry nonempty identifiers, and for every catalog whose
constructors return widgets carrying the identifier they were handed, the
identifiers assigned are the type name suffixed 1, 2, 3, ... in creation
order, with no gaps. -/
theorem transform_unnamed_sequence_gapless (cat : Catalog) (ty : String)
    (s : NxState) (n : Nat) (hty : ty ≠ "") (hcat : honestCatalog cat ty)
    (hledger : s.elemTypeArr.count ty = 0)
    (hno : ∀ kw ∈ s.widgets, kw.2.canvasID ≠ "") :
    (runUnnamed cat ty n s).2 = (List.range n).map (fun i => ty ++ toString (i + 1)) := by
  have h := runUnnamed_ids_general cat ty hty hcat n s hno
  rw [hledger] at h
  simpa using h

theorem transform_unnamed_sequence_gapless_witness :
    (runUnnamed sampleCatalog "dial" 3 nxInit).2
      = (List.range 3).map (fun i => "dial" ++ toString (i + 1)) :=
  transform_unnamed_sequence_gapless sampleCatalog "dial" nxInit 3 (by decide)
    (fun i w hw => by
      simp [constructs, sampleCatalog] at hw
      rw [← hw]
      rfl)
    rfl
    (by intro kw hkw; simp [nxInit] at hkw)

/-- C2: transform appends the resolved type name to the type-count ledger
whenever the type resolves (even when the surface carries an explicit
identifier, and even when construction then fails); consequently, after an
unnamed dial (assigned "dial1") and a dial with the explicit identifier
"mainDial", a third unnamed dial is assigned "dial3", not "dial2". -/
theorem transform_ledger_unconditional_append :
    (∀ (cat : Catalog) (s : NxState) (canvas : Canvas) (ty : Option String) (t : String),
      (∀ kw ∈ s.widgets, kw.2.canvasID ≠ canvas.id) →
      (if jsTruthy ty then ty else canvas.nxAttr) = some t → t ≠ "" →
      (transform cat s canvas ty).state.elemTypeArr = s.elemTypeArr ++ [t]) ∧
    (∀ cat : Catalog, honestCatalog cat "dial" → (dialScenario cat).canvas.id = "dial3") := by
  constructor
  · intro cat s canvas ty t hguard hres ht
    rw [transform_eq_typed cat s canvas ty t hguard hres ht]
    cases hcon : constructs cat t (assignedId canvas t (s.elemTypeArr.count t)) with
    | none => rw [transformTyped_eq_fail cat s canvas t hcon]
    | some w => rw [transformTyped_eq_ok cat s canvas t w hcon]
  · intro cat hcat
    have hd : ("dial" : String) ≠ "" := by decide
    have hres1 : (if jsTruthy (none : Option String) then none
        else (freshCanvas "dial").nxAttr) = some "dial" := by
      simp [jsTruthy, freshCanvas]
    have hguard1 : ∀ kw ∈ nxInit.widgets, kw.2.canvasID ≠ (freshCanvas "dial").id := by
      intro kw hkw
      simp [nxInit] at hkw
    obtain ⟨hid1, harr1, hw1⟩ :=
      transform_step cat "dial" hd hcat nxInit (freshCanvas "dial") none hguard1 hres1
    have ha1 : assignedId (freshCanvas "dial") "dial" (nxInit.elemTypeArr.count "dial")
        = "dial1" := by decide
    rw [ha1] at hw1
    have hcount1 : (transform cat nxInit (freshCanvas "dial") none).state.elemTypeArr.count "dial"
        = 1 := by
      rw [harr1]
      decide
    have hguard2 : ∀ kw ∈ (transform cat nxInit (freshCanvas "dial") none).state.widgets,
        kw.2.canvasID ≠ (Canvas.mk "mainDial" (some "dial")).id := by
      intro kw hkw
      rcases hw1 kw hkw with h | h
      · rw [h]
        decide
      · simp [nxInit] at h
    have hres2 : (if jsTruthy (none : Option String) then none
        else (Canvas.mk "mainDial" (some "dial")).nxAttr) = some "dial" := by
      simp [jsTruthy]
    obtain ⟨hid2, harr2, hw2⟩ :=
      transform_step cat "dial" hd hcat
        (transform cat nxInit (freshCanvas "dial") none).state
        (Canvas.mk "mainDial" (some "dial")) none hguard2 hres2
    rw [hcount1] at hid2 hw2
    have ha2 : assignedId (Canvas.mk "mainDial" (some "dial")) "dial" 1 = "mainDial" := by
      decide
    rw [ha2] at hw2
    have hcount2 :
        (transform cat (transform cat nxInit (freshCanvas "dial") none).state
          (Canvas.mk "mainDial" (some "dial")) none).state.elemTypeArr.count "dial" = 2 := by
      rw [harr2, List.count_append, hcount1]
      decide
    have hguard3 : ∀ kw ∈ (transform cat (transform cat nxInit (freshCanvas "dial") none).state
        (Canvas.mk "mainDial" (some "dial")) none).state.widgets,
        kw.2.canvasID ≠ (freshCanvas "dial").id := by
      intro kw hkw
      rcases hw2 kw hkw with h | h
      · rw [h]
        decide
      · rcases hw1 kw h with h2 | h2
        · rw [h2]
          decide
        · simp [nxInit] at h2
    have hres3 : (if jsTruthy (none : Option String) then none
        else (freshCanvas "dial").nxAttr) = some "dial" := by
      simp [jsTruthy, freshCanvas]
    obtain ⟨hid3, _, _⟩ :=
      transform_step cat "dial" hd hcat
        (transform cat (transform cat nxInit (freshCanvas "dial") none).state
          (Canvas.mk "mainDial" (some "dial")) none).state
        (freshCanvas "dial") none hguard3 hres3
    rw [hcount2] at hid3
    show (transform cat (transform cat (transform cat nxInit (freshCanvas "dial") none).state
        (Canvas.mk "mainDial" (some "dial")) none).state (freshCanvas "dial") none).canvas.id
      = "dial3"
    rw [hid3]
    decide

theorem transform_ledger_unconditional_append_witness :
    (transform sampleCatalog nxInit (Canvas.mk "mainDial" (some "dial")) none).state.elemTypeArr
      = nxInit.elemTypeArr ++ ["dial"] ∧
    (dialScenario sampleCatalog).canvas.id = "dial3" :=
  ⟨transform_ledger_unconditional_append.1 sampleCatalog nxInit
      (Canvas.mk "mainDial" (some "dial")) none "dial"
      (by intro kw hkw; simp [nxInit] at hkw)
      (by simp [jsTruthy])
      (by decide),
   transform_ledger_unconditional_append.2 sampleCatalog
      (fun i w hw => by
        simp [constructs, sampleCatalog] at hw
        rw [← hw]
        rfl)⟩

/-- C3: calling transform on a surface whose identifier already belongs to a
registered widget is an idempotent silent no-op: the call returns nothing, the
state is unchanged (so the registry still holds exactly one widget under that
identifier, given unique registry keys), no entry is appended to the
type-count ledger, nothing is logged, and no exception escapes. -/
theorem transform_duplicate_noop (cat : Catalog) (s : NxState) (canvas : Canvas)
    (ty : Option String) (w : Widget)
    (hmem : (canvas.id, w) ∈ s.widgets) (hid : w.canvasID = canvas.id)
    (hnodup : (s.widgets.map Prod.fst).Nodup) :
    transform cat s canvas ty
      = { state := s, canvas := canvas, ret := none, log := [], exn := none } ∧
    ((transform cat s canvas ty).state.widgets.filter
        (fun kw => kw.1 == canvas.id)).length = 1 ∧
    (transform cat s canvas ty).state.elemTypeArr = s.elemTypeArr := by
  have hguard : s.widgets.any (fun kw => kw.2.canvasID == canvas.id) = true := by
    rw [List.any_eq_true]
    exact ⟨(canvas.id, w), hmem, by simp [hid]⟩
  have h1 : transform cat s canvas ty
      = { state := s, canvas := canvas, ret := none, log := [], exn := none } := by
    simp [transform, hguard]
  refine ⟨h1, ?_, by rw [h1]⟩
  rw [h1]
  exact filter_key_nodup_length s.widgets canvas.id w hmem hnodup

theorem transform_duplicate_noop_witness :
    transform sampleCatalog propState (Canvas.mk "dial1" (some "dial")) none
      = { state := propState, canvas := Canvas.mk "dial1" (some "dial"),
          ret := none, log := [], exn := none } ∧
    ((transform sampleCatalog propState (Canvas.mk "dial1" (some "dial")) none).state.widgets.filter
        (fun kw => kw.1 == "dial1")).length = 1 ∧
    (transform sampleCatalog propState (Canvas.mk "dial1" (some "dial")) none).state.elemTypeArr
      = propState.elemTypeArr :=
  transform_duplicate_noop sampleCatalog propState (Canvas.mk "dial1" (some "dial")) none
    (dialWidget "dial1") (by decide) rfl (by decide)

/-- C4 counterexample: at a type name absent from the catalog, the swallowed
construction failure is followed by the registration line reading a field off
the undefined result, so transform does surface an error (a TypeError) to the
caller and registers nothing, refuting the claim that it proceeds to register
the resulting value rather than surfacing an error. -/
theorem transform_swallow_counterexample :
    (transform badCatalog nxInit (freshCanvas "bogus") none).exn = some "TypeError" ∧
    (transform badCatalog nxInit (freshCanvas "bogus") none).state.widgets = [] ∧
    (transform badCatalog nxInit (freshCanvas "bogus") none).log = ["bogus"] := by
  decide

/-- C4 amended: if widget construction throws for any reason (unknown type
name or a constructor error), the exception is swallowed and only the type
name is logged, but the function then throws a TypeError when it reads the
identifier off the undefined construction result: the error surfaces to the
caller, no widget is registered (the registry is unchanged), and the type name
remains appended to the type-count ledger. -/
theorem transform_construction_failure (cat : Catalog) (s : NxState) (canvas : Canvas)
    (ty : Option String) (t : String)
    (hguard : ∀ kw ∈ s.widgets, kw.2.canvasID ≠ canvas.id)
    (hres : (if jsTruthy ty then ty else canvas.nxAttr) = some t) (ht : t ≠ "")
    (hfail : constructs cat t (assignedId canvas t (s.elemTypeArr.count t)) = none) :
    transform cat s canvas ty =
      { state := { s with elemTypeArr := s.elemTypeArr ++ [t] },
        canvas := { canvas with id := assignedId canvas t (s.elemTypeArr.count t) },
        ret := none, log := [t], exn := some "TypeError" } := by
  rw [transform_eq_typed cat s canvas ty t hguard hres ht]
  exact transformTyped_eq_fail cat s canvas t hfail

theorem transform_construction_failure_witness :
    transform badCatalog nxInit (freshCanvas "bogus") none =
      { state := { nxInit with elemTypeArr := nxInit.elemTypeArr ++ ["bogus"] },
        canvas := { freshCanvas "bogus" with
          id := assignedId (freshCanvas "bogus") "bogus" (nxInit.elemTypeArr.count "bogus") },
        ret := none, log := ["bogus"], exn := some "TypeError" } :=
  transform_construction_failure badCatalog nxInit (freshCanvas "bogus") none "bogus"
    (by intro kw hkw; simp [nxInit] at hkw)
    (by simp [jsTruthy, freshCanvas])
    (by decide)
    rfl

/-- C5: evaluation of removeAni at the failing inputs.  The source's
`splice(indexOf(fn))` removes the first occurrence of `fn` together with every
entry after it, and for an absent `fn` (`indexOf` = -1) it removes the last
entry, contradicting the claimed remove-exactly-one / no-op-when-absent
behavior. -/
theorem removeAni_splice_divergence :
    (removeAni aniListState ⟨1, false⟩).aniItems = [⟨0, false⟩] ∧
    (removeAni aniListState ⟨9, false⟩).aniItems = [⟨0, false⟩, ⟨1, false⟩] := by
  decide

/-- C6 counterexample: with the falsy value "" the broadcast does not happen:
the call is a silent no-op, the property is not written, and no widget is
redrawn, refuting the claim that set-property broadcasts for arbitrary
name/value pairs. -/
theorem setProp_falsy_counterexample :
    setProp propState "foo" "" = propState ∧
    getKey (setProp propState "foo" "").props "foo" = none ∧
    (setProp propState "foo" "").widgets.map (fun kw => kw.2.drawCount) = [0] := by
  decide

/-- C6 amended: for every truthy (nonempty) name and value, setProp writes the
property on the shared global state and on every registered widget and redraws
every widget, with no check that the name is a recognized property; when the
name or the value is falsy the call is a silent no-op. -/
theorem setProp_broadcast (s : NxState) (prop val : String) :
    (prop ≠ "" → val ≠ "" →
      setProp s prop val =
        { s with
          props := setKey s.props prop val,
          widgets := s.widgets.map (fun kw =>
            (kw.1, Widget.draw { kw.2 with props := setKey kw.2.props prop val })) }) ∧
    ((prop = "" ∨ val = "") → setProp s prop val = s) := by
  constructor
  · intro hp hv
    simp [setProp, hp, hv]
  · intro h
    rcases h with h | h <;> simp [setProp, h]

theorem setProp_broadcast_witness :
    setProp propState "foo" "bar" =
      { propState with
        props := setKey propState.props "foo" "bar",
        widgets := propState.widgets.map (fun kw =>
          (kw.1, Widget.draw { kw.2 with props := setKey kw.2.props "foo" "bar" })) } ∧
    setProp propState "" "bar" = propState :=
  ⟨(setProp_broadcast propState "foo" "bar").1 (by decide) (by decide),
   (setProp_broadcast propState "" "bar").2 (Or.inl rfl)⟩

/-- C7 counterexample: at the empty color string the two recolor forms
disagree: the single-argument call writes "" into the shared "accent" slot,
while the two-argument call writes the string "accent" there, so the
equivalence claimed for every color string fails at the falsy color "". -/
theorem colorize_single_arg_counterexample :
    getKey (colorize nxInit "" none).colors "accent" = some "" ∧
    getKey (colorize nxInit "accent" (some "")).colors "accent" = some "accent" ∧
    colorize nxInit "" none ≠ colorize nxInit "accent" (some "") := by
  decide

/-- C7 amended: for every truthy (nonempty) color string c and every registry
state, recolor(c) and recolor("accent", c) are the same operation: identical
shared color mapping, identical per-widget color mappings, and the same
redraws. -/
theorem colorize_single_arg_equiv (s : NxState) (c : String) (hc : c ≠ "") :
    colorize s c none = colorize s "accent" (some c) := by
  simp [colorize, jsTruthy, hc]

theorem colorize_single_arg_equiv_witness :
    colorize nxInit "#112233" none = colorize nxInit "accent" (some "#112233") :=
  colorize_single_arg_equiv nxInit "#112233" (by decide)

/-- C9: the single-argument behavior of recolor is triggered by falsiness of
the second argument, not by argument count: for every falsy color value and
every aspect string a, recolor(a, falsy) writes the string a into the shared
"accent" slot and into every widget's "accent" slot and redraws every widget,
instead of updating aspect a. -/
theorem colorize_falsy_color_targets_accent (s : NxState) (a : String)
    (c : Option String) (hc : jsTruthy c = false) :
    colorize s a c =
      { s with
        colors := setKey s.colors "accent" a,
        widgets := s.widgets.map (fun kw =>
          (kw.1, Widget.draw { kw.2 with colors := setKey kw.2.colors "accent" a })) } := by
  simp [colorize, hc]

theorem colorize_falsy_color_targets_accent_witness :
    colorize propState "fill" (some "") =
      { propState with
        colors := setKey propState.colors "accent" "fill",
        widgets := propState.widgets.map (fun kw =>
          (kw.1, Widget.draw { kw.2 with colors := setKey kw.2.colors "accent" "fill" })) } :=
  colorize_falsy_color_targets_accent propState "fill" (some "") (by decide)

/-- C8: one pulse tick invokes every registered animation callback exactly
once, in insertion order, synchronously; and when a callback throws, the
exception propagates out of the tick and the remaining callbacks are not
invoked. -/
theorem pulse_insertion_order_abort (s : NxState) :
    ((∀ c ∈ s.aniItems, c.throws = false) →
      pulse s = (s.aniItems.map Cb.cid, false)) ∧
    (∀ pre c post, s.aniItems = pre ++ c :: post →
      (∀ d ∈ pre, d.throws = false) → c.throws = true →
      pulse s = (pre.map Cb.cid ++ [c.cid], true)) := by
  constructor
  · intro h
    exact pulseRun_ok _ h
  · intro pre c post hsplit hpre hc
    rw [pulse, hsplit]
    exact pulseRun_abort pre c post hpre hc

theorem pulse_insertion_order_abort_witness :
    pulse aniOkState = ([1, 2, 3], false) ∧ pulse aniThrowState = ([1, 2], true) := by
  constructor
  · have h := (pulse_insertion_order_abort aniOkState).1 (by decide)
    rw [h]
    rfl
  · have h := (pulse_insertion_order_abort aniThrowState).2
      [⟨1, false⟩] ⟨2, true⟩ [⟨3, false⟩] rfl (by decide) rfl
    rw [h]
    rfl

/-- C10: setThrottlePeriod updates the shared throttle value and each widget's
throttle field and nothing else: no redraw happens (draw counts unchanged),
the registry keys, the type-count ledger, the shared colors, the label flag,
the global properties, the animation callbacks, and every other widget field
are untouched. -/
theorem setThrottlePeriod_frame (s : NxState) (ms : Int) :
    (setThrottlePeriod s ms).throttlePeriod = ms ∧
    (setThrottlePeriod s ms).widgets
      = s.widgets.map (fun kw => (kw.1, { kw.2 with throttlePeriod := ms })) ∧
    (setThrottlePeriod s ms).elemTypeArr = s.elemTypeArr ∧
    (setThrottlePeriod s ms).colors = s.colors ∧
    (setThrottlePeriod s ms).showLabels = s.showLabels ∧
    (setThrottlePeriod s ms).props = s.props ∧
    (setThrottlePeriod s ms).aniItems = s.aniItems ∧
    (setThrottlePeriod s ms).widgets.map (fun kw => kw.2.drawCount)
      = s.widgets.map (fun kw => kw.2.drawCount) := by
  refine ⟨rfl, rfl, rfl, rfl, rfl, rfl, rfl, ?_⟩
  rw [setThrottlePeriod]
  rw [List.map_map]
  rfl

end NexusUI
